import Mathlib

/-!
Shallow embedding of the perthensis debounce engine
(`src/perthensis/debounce.py`) and proofs about it.

The module has three classes:

* `TimerDebounce` — coordinator owning a dict of pins, a tri-state
  liveness flag `_running_jobs` (0 = `RUNNING_NONE`, 1 = `RUNNING_SOME`,
  2 = `RUNNING_CHECKING`) and a periodic hardware timer;
* `DebouncedPin` — per-pin record with `_threshold`, `_settle_wait`,
  `_previous`, `_value`;
* `DebouncedRotary` — quadrature decoder with a 4-bit `_state` register,
  an `_invert` mask, a `_reverse` multiplier and a fixed 16-entry
  `VALID_TRANSITIONS` table.

Machine/MicroPython capabilities (pin reads, `schedule`, the timer) are
modelled explicitly: pin levels are `Fin 2` (0/1) for rotary inputs and
`Nat` values for debounced pins, a successful `micropython.schedule` of a
callback is modelled as the call being delivered (the claims under proof
all presuppose delivery), and the periodic 1 ms timer is modelled by a
tick-indexed simulation in which an edge arriving at tick `t` is processed
before tick `t`'s scan.  Python `None`-able fields become `Option`s and
Python ints become `Int` (`Nat` for pin ids, tick counts and pin levels).
-/

namespace Perthensis

/-- `TimerDebounce.RUNNING_NONE` (debounce.py line 7). -/
def RUNNING_NONE : Nat := 0

/-- `TimerDebounce.RUNNING_SOME` (debounce.py line 8). -/
def RUNNING_SOME : Nat := 1

/-- `TimerDebounce.RUNNING_CHECKING` (debounce.py line 9). -/
def RUNNING_CHECKING : Nat := 2

/-- One `DebouncedPin` record (debounce.py lines 101-112).  The callback is
an opaque capability id; `pull` is the opaque pull configuration; the pin
object itself and the bound `_debounce_handler` are represented by the
coordinator operations below. -/
structure DebouncedPin where
  id : Nat
  callback : Nat
  pull : Option Nat
  threshold : Int
  settle_wait : Option Int
  previous : Option Nat
  value : Option Nat
deriving DecidableEq

/-- A freshly constructed `DebouncedPin`: `_settle_wait = None`,
`_previous = None`, `_value = None` (debounce.py lines 106-108). -/
def DebouncedPin.fresh (pid cb : Nat) (pull : Option Nat) (th : Int) : DebouncedPin :=
  { id := pid, callback := cb, pull := pull, threshold := th,
    settle_wait := none, previous := none, value := none }

/-- The `TimerDebounce` coordinator: insertion-ordered pin mapping
`_pins`, liveness flag `_running_jobs`, and whether the periodic hardware
timer is currently initialised (`_timer.init` … `_timer.deinit`). -/
structure TimerDebounce where
  pins : List (Nat × DebouncedPin)
  running_jobs : Nat
  timerOn : Bool
deriving DecidableEq

/-- `TimerDebounce.__init__` (debounce.py lines 11-26): empty pin dict,
`_running_jobs = RUNNING_NONE`, timer not started. -/
def TimerDebounce.init : TimerDebounce :=
  { pins := [], running_jobs := RUNNING_NONE, timerOn := false }

/-- The error raised by `TimerDebounce.add_pin` on a duplicate pin id
(the code raises `IndexError('pin … already present')`; the spec names
this condition DuplicateKeyError). -/
inductive DebounceError where
  | duplicateKey
deriving DecidableEq

/-- `TimerDebounce.add_pin` (debounce.py lines 76-91).  `pin_id in
self._pins` is dict-key membership, modelled by `List.lookup`; the raise
leaves the mapping untouched, so the error case returns the coordinator
unchanged together with the error; otherwise the new watcher is stored
under the new key. -/
def addPin (d : TimerDebounce) (pid cb : Nat) (pull : Option Nat) (th : Int) :
    TimerDebounce × Option DebounceError :=
  if (d.pins.lookup pid).isSome then (d, some DebounceError.duplicateKey)
  else ({ d with pins := d.pins ++ [(pid, DebouncedPin.fresh pid cb pull th)] }, none)

/-- `TimerDebounce._change_handler` (debounce.py lines 28-39): inside a
critical section, start the timer if `_running_jobs == RUNNING_NONE`, then
set the flag to `RUNNING_SOME` unconditionally. -/
def changeHandler (d : TimerDebounce) : TimerDebounce :=
  { d with
    timerOn := if d.running_jobs = RUNNING_NONE then true else d.timerOn,
    running_jobs := RUNNING_SOME }

/-- The per-pin body of the scan loop in `TimerDebounce._settle_checker`
(debounce.py lines 51-63).  Returns the updated pin, `some v` when the
user callback was invoked with value `v` (that is, with `pin._value`), and
whether the pin still has a running countdown (which makes the loop set
`_running_jobs = RUNNING_SOME`). -/
def scanPin (p : DebouncedPin) : DebouncedPin × Option (Option Nat) × Bool :=
  match p.settle_wait with
  | none => (p, none, false)
  | some w =>
    if w ≤ 0 then
      if p.value = p.previous then ({ p with settle_wait := none }, none, false)
      else ({ p with settle_wait := none, previous := p.value }, some p.value, false)
    else ({ p with settle_wait := some (w - 1) }, none, true)

/-- The scan loop of `_settle_checker` over the whole pin mapping:
updated mapping, fired callbacks `(pin_id, value)` in mapping order, and
whether any pin was still counting down. -/
def scanPins : List (Nat × DebouncedPin) →
    List (Nat × DebouncedPin) × List (Nat × Option Nat) × Bool
  | [] => ([], [], false)
  | (pid, p) :: rest =>
    let s := scanPin p
    let r := scanPins rest
    ((pid, s.1) :: r.1,
     (match s.2.1 with
      | some v => (pid, v) :: r.2.1
      | none => r.2.1),
     s.2.2 || r.2.2)

/-- `TimerDebounce._settle_checker` (debounce.py lines 45-74): the flag is
set to `RUNNING_CHECKING` on entry, the loop sets it back to
`RUNNING_SOME` whenever a countdown is still running, and in the closing
critical section the timer is stopped and the flag reset to
`RUNNING_NONE` exactly when the flag is still `RUNNING_CHECKING`. -/
def settleChecker (d : TimerDebounce) : TimerDebounce × List (Nat × Option Nat) :=
  let s := scanPins d.pins
  let running' := if s.2.2 = true then RUNNING_SOME else RUNNING_CHECKING
  if running' = RUNNING_CHECKING then
    ({ pins := s.1, running_jobs := RUNNING_NONE, timerOn := false }, s.2.1)
  else
    ({ pins := s.1, running_jobs := running', timerOn := d.timerOn }, s.2.1)

/-- `DebouncedPin._irq_handler` (debounce.py lines 114-124) followed by the
scheduled `_change_handler`: record `_settle_wait = _threshold` and
`_value = pin.value()` on the edge's pin, then run the coordinator's
change handler. -/
def irqStep (pid v : Nat) (d : TimerDebounce) : TimerDebounce :=
  changeHandler
    { d with
      pins := d.pins.map fun kv =>
        if kv.1 = pid then
          (kv.1, { kv.2 with settle_wait := some kv.2.threshold, value := some v })
        else kv }

/-- Tick-indexed simulation of the debounce engine.  `edges` is the
tick-sorted list of pending edge interrupts `(tick, pin_id, level)`; at
each tick the due edge (if any) is processed first, and then — exactly
when the periodic timer is running — one `_settle_checker` scan runs.
The result is the list of user-callback invocations `(tick, pin_id,
value)` in order of delivery. -/
def runSim : Nat → Nat → List (Nat × Nat × Nat) → TimerDebounce →
    List (Nat × Nat × Option Nat)
  | 0, _, _, _ => []
  | fuel + 1, t, edges, d =>
    let next := fun (edges' : List (Nat × Nat × Nat)) (d' : TimerDebounce) =>
      if d'.timerOn then
        let s := settleChecker d'
        (s.2.map fun e => (t, e.1, e.2)) ++ runSim fuel (t + 1) edges' s.1
      else runSim fuel (t + 1) edges' d'
    match edges with
    | [] => next [] d
    | (te, pid, v) :: rest =>
      if te = t then next rest (irqStep pid v d)
      else next ((te, pid, v) :: rest) d

/-- The spec's timer-liveness invariant: the hardware timer is running iff
the liveness flag is not `RUNNING_NONE`. -/
def timerInv (d : TimerDebounce) : Prop :=
  d.timerOn = true ↔ d.running_jobs ≠ RUNNING_NONE

instance (d : TimerDebounce) : Decidable (timerInv d) :=
  inferInstanceAs (Decidable (d.timerOn = true ↔ d.running_jobs ≠ RUNNING_NONE))

/-- Well-formedness of a burst of edges on pin `pid` whose previous edge
was at tick `t`: ticks strictly increase and consecutive edges are at most
`threshold` ticks apart. -/
def chainOk (th : Int) (pid : Nat) : Nat → List (Nat × Nat × Nat) → Bool
  | _, [] => true
  | t, (te, p, _) :: rest =>
    (p == pid) && (decide (t < te)) && (decide (((te - t : Nat) : Int) ≤ th)) &&
      chainOk th pid te rest

/-- Tick of the last edge of a burst (`t` if the burst is empty). -/
def lastTick : Nat → List (Nat × Nat × Nat) → Nat
  | t, [] => t
  | _, e :: rest => lastTick e.1 rest

/-- Level recorded by the last edge of a burst (`v` if the burst is
empty). -/
def lastVal : Nat → List (Nat × Nat × Nat) → Nat
  | v, [] => v
  | _, e :: rest => lastVal e.2.2 rest

/-- A `DebouncedPin` record with every field explicit (used to describe
intermediate simulation states). -/
def pinRec (pid cb : Nat) (pl : Option Nat) (th : Int) (w : Option Int)
    (prev val : Option Nat) : DebouncedPin :=
  { id := pid, callback := cb, pull := pl, threshold := th,
    settle_wait := w, previous := prev, value := val }

/-- The single-pin coordinator state used by the burst lemmas: one
registered pin `pid` with a running countdown `w`, flag `RUNNING_SOME`,
timer on. -/
def stW (pid cb : Nat) (pl : Option Nat) (th w : Int) (prev val : Option Nat) :
    TimerDebounce :=
  { pins := [(pid, pinRec pid cb pl th (some w) prev val)],
    running_jobs := RUNNING_SOME, timerOn := true }

/-- `DebouncedRotary.VALID_TRANSITIONS` (debounce.py lines 133-134). -/
def VALID_TRANSITIONS : List Bool :=
  [false, true, true, false, true, false, false, true,
   true, false, false, true, false, true, true, false]

/-- A `DebouncedRotary` instance (debounce.py lines 136-163): the
`_invert` mask, the `_reverse` multiplier and the 4-bit `_state`
register.  The two pins and the callback capability are external. -/
structure DebouncedRotary where
  invert : Nat
  reverse : Int
  state : Nat
deriving DecidableEq

/-- `DebouncedRotary.__init__` field initialisation (debounce.py lines
160-163): `_invert = 0x03 if invert else 0x00`, `_reverse = -1 if reverse
else 1`, `_state = 0x00`. -/
def rotaryInit (invert reverse : Bool) : DebouncedRotary :=
  { invert := if invert then 0x03 else 0x00,
    reverse := if reverse then -1 else 1,
    state := 0x00 }

/-- The `newstate` computation of `DebouncedRotary._irq_handler`
(debounce.py lines 169-174), with the two pin reads `dat = _dat.value()`
and `clk = _clk.value()` as `Fin 2` arguments. -/
def rotaryNewstate (state inv : Nat) (dat clk : Fin 2) : Nat :=
  ((state <<< 2) ||| (((dat.val <<< 1) ||| clk.val) ^^^ inv)) &&& 0x0f

/-- `DebouncedRotary._irq_handler` (debounce.py lines 168-184): commit
`newstate` only when `VALID_TRANSITIONS[newstate]` holds, and on reaching
0x07 / 0x0b schedule the user callback with `_reverse` / `-1 * _reverse`.
`some x` means the callback was scheduled with argument `x`.  (`newstate`
is always < 16 thanks to the `& 0x0f` mask, so the `getD` default is
never consulted.) -/
def rotaryIrq (r : DebouncedRotary) (dat clk : Fin 2) : DebouncedRotary × Option Int :=
  let newstate := rotaryNewstate r.state r.invert dat clk
  if VALID_TRANSITIONS.getD newstate false then
    let r' := { r with state := newstate }
    if newstate = 0x07 then (r', some r.reverse)
    else if newstate = 0x0b then (r', some (-1 * r.reverse))
    else (r', none)
  else (r, none)

/-- Run a sequence of rotary edge interrupts, collecting the scheduled
callback arguments in order. -/
def runRotary : DebouncedRotary → List (Fin 2 × Fin 2) → DebouncedRotary × List Int
  | r, [] => (r, [])
  | r, (d, c) :: rest =>
    let s := rotaryIrq r d c
    let k := runRotary s.1 rest
    (k.1, match s.2 with
          | some x => x :: k.2
          | none => k.2)

/-- A 4-bit value is fixed by the `& 0x0f` mask. -/
theorem and_fifteen_of_lt {x : Nat} (h : x < 16) : x &&& 0x0f = x := by
  interval_cases x <;> rfl

/-- The committed state is always the result of the `& 0x0f` mask. -/
theorem rotaryNewstate_lt (state inv : Nat) (d c : Fin 2) :
    rotaryNewstate state inv d c < 16 := by
  have h : rotaryNewstate state inv d c ≤ 15 := Nat.and_le_right
  omega

/-- One rotary edge interrupt keeps the state register below 16. -/
theorem rotaryIrq_state_lt (r : DebouncedRotary) (d c : Fin 2) (h : r.state < 16) :
    (rotaryIrq r d c).1.state < 16 := by
  by_cases hv : VALID_TRANSITIONS.getD (rotaryNewstate r.state r.invert d c) false = true
  · simp only [rotaryIrq]
    rw [hv, if_pos rfl]
    split
    · exact rotaryNewstate_lt r.state r.invert d c
    · split
      · exact rotaryNewstate_lt r.state r.invert d c
      · exact rotaryNewstate_lt r.state r.invert d c
  · rw [Bool.not_eq_true] at hv
    simp only [rotaryIrq]
    rw [hv, if_neg (by simp)]
    exact h

/-- Any run of rotary edge interrupts keeps the state register below 16. -/
theorem runRotary_state_lt :
    ∀ (l : List (Fin 2 × Fin 2)) (r : DebouncedRotary), r.state < 16 →
      (runRotary r l).1.state < 16
  | [], _, h => h
  | (d, c) :: rest, r, h =>
    runRotary_state_lt rest (rotaryIrq r d c).1 (rotaryIrq_state_lt r d c h)

/-- C9: the rotary decoder's state register always lies in 0..15: it is
initialized to 0x00, and after any sequence of edge interrupts the
reachable state satisfies `state &&& 0x0f = state`, because every commit
masks the value with 0x0f. -/
theorem c9_state_always_4bit (i rv : Bool) (inputs : List (Fin 2 × Fin 2)) :
    (rotaryInit i rv).state = 0 ∧
      (runRotary (rotaryInit i rv) inputs).1.state &&& 0x0f =
        (runRotary (rotaryInit i rv) inputs).1.state := by
  refine ⟨rfl, and_fifteen_of_lt ?_⟩
  exact runRotary_state_lt inputs (rotaryInit i rv) (by simp [rotaryInit])

/-- C2 counterexample: the valid-transition table does not have 9 entries
marked invalid (`False`); it has 8. -/
theorem c2_counterexample : ¬ VALID_TRANSITIONS.count false = 9 := by decide

/-- C2 (amended): of the 16 possible 4-bit transition codes, exactly 8
are marked invalid in `VALID_TRANSITIONS`, and an invalid code never
changes the decoder's state register. -/
theorem c2_noise_rejection :
    (VALID_TRANSITIONS.length = 16 ∧ VALID_TRANSITIONS.count false = 8) ∧
    ∀ (r : DebouncedRotary) (d c : Fin 2),
      VALID_TRANSITIONS.getD (rotaryNewstate r.state r.invert d c) false = false →
      (rotaryIrq r d c).1.state = r.state := by
  refine ⟨by decide, ?_⟩
  intro r d c h
  simp only [rotaryIrq]
  rw [h, if_neg (by simp)]

/-- C2 witness: the transition 0x00 → 0x00 (both pins low, no history) is
invalid and leaves the state register unchanged. -/
theorem c2_witness :
    (rotaryIrq (rotaryInit false false) 0 0).1.state = (rotaryInit false false).state :=
  c2_noise_rejection.2 (rotaryInit false false) 0 0 (by decide)

/-- C5 counterexample: from committed state 0x01 (with `invert = false`,
so mask 0x00) no pin-pair input produces newstate 0x03 — the update rule
shifts the old state left by two, so the next code's high bits are 01 —
and moreover code 0x03 is marked invalid in the table, so the claimed
state sequence 0x00 → 0x01 → 0x03 → 0x02 → 0x07 is impossible. -/
theorem c5_counterexample :
    rotaryNewstate 0x01 0x00 0 0 ≠ 0x03 ∧ rotaryNewstate 0x01 0x00 0 1 ≠ 0x03 ∧
    rotaryNewstate 0x01 0x00 1 0 ≠ 0x03 ∧ rotaryNewstate 0x01 0x00 1 1 ≠ 0x03 ∧
    VALID_TRANSITIONS.getD 0x03 false = false := by decide

/-- C5 (amended): with `invert = false`, `reverse = false` and initial
state 0x00, the inputs (dat, clk) = (0, 1) then (1, 1) produce the
committed state sequence 0x00 → 0x01 → 0x07; both steps are marked valid
in the transition table, and exactly one callback with argument +1 is
enqueued, after the step landing on 0x07. -/
theorem c5_cw_scenario :
    VALID_TRANSITIONS.getD 0x01 false = true ∧
    VALID_TRANSITIONS.getD 0x07 false = true ∧
    rotaryIrq (rotaryInit false false) 0 1 = (⟨0x00, 1, 0x01⟩, none) ∧
    rotaryIrq ⟨0x00, 1, 0x01⟩ 1 1 = (⟨0x00, 1, 0x07⟩, some 1) ∧
    runRotary (rotaryInit false false) [(0, 1), (1, 1)] = (⟨0x00, 1, 0x07⟩, [1]) := by
  decide

/-- C6: the reverse multiplier is -1 when `reverse = true` and +1
otherwise; a valid transition committing the state to 0x07 enqueues the
callback with `_reverse`, one committing to 0x0b enqueues it with
`-1 * _reverse`, and a valid transition to any other code enqueues
nothing. -/
theorem c6_detent_callbacks :
    (∀ i : Bool, (rotaryInit i true).reverse = -1 ∧ (rotaryInit i false).reverse = 1) ∧
    ∀ (r : DebouncedRotary) (d c : Fin 2),
      VALID_TRANSITIONS.getD (rotaryNewstate r.state r.invert d c) false = true →
      ((rotaryNewstate r.state r.invert d c = 0x07 →
          rotaryIrq r d c = ({ r with state := 0x07 }, some r.reverse)) ∧
       (rotaryNewstate r.state r.invert d c = 0x0b →
          rotaryIrq r d c = ({ r with state := 0x0b }, some (-1 * r.reverse))) ∧
       (rotaryNewstate r.state r.invert d c ≠ 0x07 →
        rotaryNewstate r.state r.invert d c ≠ 0x0b →
          rotaryIrq r d c =
            ({ r with state := rotaryNewstate r.state r.invert d c }, none))) := by
  refine ⟨fun i => ⟨rfl, rfl⟩, ?_⟩
  intro r d c hv
  refine ⟨?_, ?_, ?_⟩
  · intro h7
    simp only [rotaryIrq]
    rw [hv, if_pos rfl, if_pos h7, h7]
  · intro hb
    have h7 : rotaryNewstate r.state r.invert d c ≠ 7 := by rw [hb]; decide
    simp only [rotaryIrq]
    rw [hv, if_pos rfl, if_neg h7, if_pos hb, hb]
  · intro h7 hb
    simp only [rotaryIrq]
    rw [hv, if_pos rfl, if_neg h7, if_neg hb]

/-- C6 witness: from state 0x01 the input (dat, clk) = (1, 1) commits
state 0x07 and enqueues the callback with the reverse multiplier +1. -/
theorem c6_witness :
    rotaryIrq ⟨0x00, 1, 0x01⟩ 1 1 = (⟨0x00, 1, 0x07⟩, some 1) := by
  have h := (c6_detent_callbacks.2 ⟨0x00, 1, 0x01⟩ 1 1 (by decide)).1 (by decide)
  exact h

/-- C8: an edge interrupt whose computed newstate is marked invalid
leaves the decoder completely unchanged and enqueues no callback. -/
theorem c8_invalid_is_noop (r : DebouncedRotary) (d c : Fin 2)
    (h : VALID_TRANSITIONS.getD (rotaryNewstate r.state r.invert d c) false = false) :
    rotaryIrq r d c = (r, none) := by
  simp only [rotaryIrq]
  rw [h, if_neg (by simp)]

/-- C8 witness: the invalid transition 0x00 → 0x00 is a complete no-op. -/
theorem c8_witness :
    rotaryIrq (rotaryInit false false) 0 0 = (rotaryInit false false, none) :=
  c8_invalid_is_noop (rotaryInit false false) 0 0 (by decide)

/-- C1: scenario A — one pin (id 5) registered with threshold 20, edges
(tick 0, value 1), (tick 5, value 0), (tick 10, value 1), scan once per
tick: the user callback fires exactly once, with arguments
(5, value 1), at tick 30 = last edge tick + threshold. -/
theorem c1_scenario_a :
    runSim 40 0 [(0, 5, 1), (5, 5, 0), (10, 5, 1)]
        (addPin TimerDebounce.init 5 0 none 20).1 =
      [(30, 5, some 1)] := by decide

/-- C3: registering an already-present pin id fails with the duplicate
key error and returns the coordinator unchanged (mapping and original
watcher untouched); registering a fresh pin id stores a new watcher
under that key. -/
theorem c3_add_pin (d : TimerDebounce) (pid cb : Nat) (pl : Option Nat) (th : Int) :
    ((d.pins.lookup pid).isSome = true →
        addPin d pid cb pl th = (d, some DebounceError.duplicateKey)) ∧
    ((d.pins.lookup pid).isSome = false →
        addPin d pid cb pl th =
          ({ d with pins := d.pins ++ [(pid, DebouncedPin.fresh pid cb pl th)] },
           none)) := by
  constructor <;> intro h <;> simp [addPin, h]

/-- C3 witness: re-registering pin 5 fails and leaves the coordinator
as it was; registering pin 5 into an empty coordinator stores it. -/
theorem c3_witness :
    addPin ⟨[(5, DebouncedPin.fresh 5 0 none 20)], RUNNING_NONE, false⟩ 5 1 none 30 =
      (⟨[(5, DebouncedPin.fresh 5 0 none 20)], RUNNING_NONE, false⟩,
       some DebounceError.duplicateKey) ∧
    addPin TimerDebounce.init 5 1 none 30 =
      ({ TimerDebounce.init with
          pins := TimerDebounce.init.pins ++ [(5, DebouncedPin.fresh 5 1 none 30)] },
       none) :=
  ⟨(c3_add_pin ⟨[(5, DebouncedPin.fresh 5 0 none 20)], RUNNING_NONE, false⟩
      5 1 none 30).1 (by decide),
   (c3_add_pin TimerDebounce.init 5 1 none 30).2 (by decide)⟩

/-- C4: the hardware timer runs iff the liveness flag is not
`RUNNING_NONE`: the invariant holds initially, `_change_handler`
preserves it, and `_settle_checker` preserves it (a scan only ever runs
because the periodic timer's interrupt scheduled it, hence the
`d.timerOn = true` precondition on the scan case). -/
theorem c4_timer_liveness :
    timerInv TimerDebounce.init ∧
    (∀ d : TimerDebounce, timerInv d → timerInv (changeHandler d)) ∧
    (∀ d : TimerDebounce, timerInv d → d.timerOn = true →
      timerInv (settleChecker d).1) := by
  refine ⟨by decide, ?_, ?_⟩
  · intro d hd
    by_cases h : d.running_jobs = RUNNING_NONE
    · simp [timerInv, changeHandler, h, RUNNING_SOME, RUNNING_NONE]
    · have ht : d.timerOn = true := hd.mpr h
      simp [timerInv, changeHandler, h, ht, RUNNING_SOME, RUNNING_NONE]
  · intro d hd hOn
    cases hpend : (scanPins d.pins).2.2 <;>
      simp [timerInv, settleChecker, hpend, hOn,
            RUNNING_SOME, RUNNING_CHECKING, RUNNING_NONE]

/-- C4 witness: both operations preserve the invariant on the concrete
state with no pins, flag `RUNNING_SOME` and the timer running. -/
theorem c4_witness :
    timerInv (changeHandler ⟨[], RUNNING_SOME, true⟩) ∧
    timerInv (settleChecker ⟨[], RUNNING_SOME, true⟩).1 :=
  ⟨c4_timer_liveness.2.1 ⟨[], RUNNING_SOME, true⟩ (by decide),
   c4_timer_liveness.2.2 ⟨[], RUNNING_SOME, true⟩ (by decide) (by decide)⟩

/-- The single-pin waiting state has the timer on. -/
theorem stW_timerOn (pid cb : Nat) (pl : Option Nat) (th w : Int)
    (prev val : Option Nat) : (stW pid cb pl th w prev val).timerOn = true := rfl

/-- A scan over a single pin whose countdown has not yet expired just
decrements the countdown: no callback, flag back to `RUNNING_SOME`,
timer kept. -/
theorem settleChecker_pending (pid cb : Nat) (pl : Option Nat) (th w : Int)
    (prev val : Option Nat) (hw : 0 < w) :
    settleChecker (stW pid cb pl th w prev val) =
      (stW pid cb pl th (w - 1) prev val, []) := by
  simp only [settleChecker, scanPins, scanPin, stW, pinRec]
  rw [if_neg (show ¬ w ≤ 0 by omega)]
  simp [RUNNING_SOME, RUNNING_CHECKING]

/-- A scan over a single pin with an expired countdown and a changed value
fires the callback once, records the value as reported, and stops the
timer. -/
theorem settleChecker_fire (pid cb : Nat) (pl : Option Nat) (th w : Int)
    (prev val : Option Nat) (hw : w ≤ 0) (hne : ¬ val = prev) :
    settleChecker (stW pid cb pl th w prev val) =
      (⟨[(pid, pinRec pid cb pl th none val val)], RUNNING_NONE, false⟩,
       [(pid, val)]) := by
  simp only [settleChecker, scanPins, scanPin, stW, pinRec]
  rw [if_pos hw, if_neg hne]
  simp [RUNNING_CHECKING, RUNNING_NONE]

/-- A scan over a single pin with an expired countdown and an unchanged
value fires nothing and stops the timer. -/
theorem settleChecker_nofire (pid cb : Nat) (pl : Option Nat) (th w : Int)
    (prev val : Option Nat) (hw : w ≤ 0) (heq : val = prev) :
    settleChecker (stW pid cb pl th w prev val) =
      (⟨[(pid, pinRec pid cb pl th none prev val)], RUNNING_NONE, false⟩,
       []) := by
  simp only [settleChecker, scanPins, scanPin, stW, pinRec]
  rw [if_pos hw, if_pos heq]
  simp [RUNNING_CHECKING, RUNNING_NONE]

/-- With the timer off and no pending edges nothing ever happens. -/
theorem runSim_dead (fuel : Nat) : ∀ (t : Nat) (d : TimerDebounce),
    d.timerOn = false → runSim fuel t [] d = [] := by
  induction fuel with
  | zero => intro t d _; rfl
  | succ n ih =>
    intro t d h
    simp only [runSim]
    rw [h]
    simp only [Bool.false_eq_true, if_false]
    exact ih (t + 1) d h

/-- One tick with a still-running countdown and no edge due: the
countdown just decrements. -/
theorem runSim_tick_pending (fuel t : Nat) (edges : List (Nat × Nat × Nat))
    (pid cb : Nat) (pl : Option Nat) (th w : Int) (prev val : Option Nat)
    (hw : 0 < w) (hhead : ∀ e ∈ edges.head?, e.1 ≠ t) :
    runSim (fuel + 1) t edges (stW pid cb pl th w prev val) =
      runSim fuel (t + 1) edges (stW pid cb pl th (w - 1) prev val) := by
  have hsc := settleChecker_pending pid cb pl th w prev val hw
  cases edges with
  | nil =>
    simp only [runSim, stW_timerOn, if_pos rfl, hsc]
    simp
  | cons e rest =>
    have hne : e.1 ≠ t := hhead e (by simp)
    simp only [runSim]
    rw [if_neg hne]
    simp only [stW_timerOn, if_pos rfl, hsc]
    simp

/-- An edge interrupt on the only registered pin: the countdown restarts
at the threshold, the new raw value is recorded, and the change handler
leaves the timer running (starting it when the flag was
`RUNNING_NONE`). -/
theorem irqStep_single (pid cb : Nat) (pl : Option Nat) (th : Int)
    (w0 : Option Int) (prev val0 : Option Nat) (v : Nat) (r0 : Nat) (b0 : Bool)
    (h : r0 = RUNNING_NONE ∨ b0 = true) :
    irqStep pid v ⟨[(pid, pinRec pid cb pl th w0 prev val0)], r0, b0⟩ =
      stW pid cb pl th th prev (some v) := by
  rcases h with h | h <;>
    simp [irqStep, changeHandler, stW, pinRec, h, RUNNING_NONE, RUNNING_SOME]

/-- One tick at which an edge on the single registered pin is due: the
edge is processed, then the same tick's scan decrements the fresh
countdown from `threshold` to `threshold - 1`. -/
theorem runSim_tick_edge (fuel t : Nat) (edges : List (Nat × Nat × Nat))
    (pid cb : Nat) (pl : Option Nat) (th : Int) (w0 : Option Int)
    (prev val0 : Option Nat) (v : Nat) (r0 : Nat) (b0 : Bool)
    (hr : r0 = RUNNING_NONE ∨ b0 = true) (hth : 0 < th) :
    runSim (fuel + 1) t ((t, pid, v) :: edges)
        ⟨[(pid, pinRec pid cb pl th w0 prev val0)], r0, b0⟩ =
      runSim fuel (t + 1) edges (stW pid cb pl th (th - 1) prev (some v)) := by
  simp only [runSim]
  rw [if_pos trivial, irqStep_single pid cb pl th w0 prev val0 v r0 b0 hr]
  simp only [stW_timerOn, if_pos rfl,
    settleChecker_pending pid cb pl th th prev (some v) hth]
  simp

/-- Coasting: while the countdown stays positive and no edge is due, `k`
ticks decrement the countdown by `k`. -/
theorem runSim_coast (pid cb : Nat) (pl : Option Nat) (th : Int) :
    ∀ (k fuel t : Nat) (edges : List (Nat × Nat × Nat)) (w : Int)
      (prev val : Option Nat),
      (k : Int) ≤ w → k ≤ fuel →
      (∀ e ∈ edges.head?, t + k ≤ e.1) →
      runSim fuel t edges (stW pid cb pl th w prev val) =
        runSim (fuel - k) (t + k) edges (stW pid cb pl th (w - k) prev val) := by
  intro k
  induction k with
  | zero => intro fuel t edges w prev val _ _ _; simp
  | succ k ih =>
    intro fuel t edges w prev val hkw hkf hhead
    cases fuel with
    | zero => omega
    | succ f =>
      rw [runSim_tick_pending f t edges pid cb pl th w prev val
            (by push_cast at hkw; omega)
            (fun e he => by have := hhead e he; omega)]
      rw [ih f (t + 1) edges (w - 1) prev val
            (by push_cast at hkw ⊢; omega)
            (by omega)
            (fun e he => by have := hhead e he; omega)]
      have h1 : f - k = Nat.succ f - Nat.succ k := by omega
      have h2 : t + 1 + k = t + Nat.succ k := by omega
      have h3 : w - 1 - (k : Int) = w - ((Nat.succ k : Nat) : Int) := by
        push_cast; ring
      rw [h1, h2, h3]

/-- The tick on which the countdown has expired, with no further edges:
the callback fires iff the recorded value differs from the last reported
one, and afterwards the engine is idle forever. -/
theorem runSim_expired (pid cb : Nat) (pl : Option Nat) (th : Int)
    (fuel t : Nat) (w : Int) (prev val : Option Nat) (hw : w ≤ 0) :
    runSim (fuel + 1) t [] (stW pid cb pl th w prev val) =
      if val = prev then [] else [(t, pid, val)] := by
  by_cases hvp : val = prev
  · simp only [runSim, stW_timerOn, if_pos rfl,
      settleChecker_nofire pid cb pl th w prev val hw hvp]
    rw [if_pos hvp]
    simp [runSim_dead]
  · simp only [runSim, stW_timerOn, if_pos rfl,
      settleChecker_fire pid cb pl th w prev val hw hvp]
    rw [if_neg hvp]
    simp [runSim_dead]

/-- The last tick of a well-formed burst is at least the starting tick. -/
theorem lastTick_ge (th : Int) (pid : Nat) :
    ∀ (rest : List (Nat × Nat × Nat)) (t : Nat),
      chainOk th pid t rest = true → t ≤ lastTick t rest := by
  intro rest
  induction rest with
  | nil => intro t _; exact Nat.le_refl t
  | cons e r ih =>
    intro t h
    simp only [chainOk, Bool.and_eq_true, decide_eq_true_eq] at h
    have := ih e.1 h.2
    simp only [lastTick]
    omega

/-- Main burst lemma: starting from a single-pin coordinator whose flag
and timer are consistent (`r0 = RUNNING_NONE` or the timer is on), a
burst of edges whose consecutive gaps are at most `threshold` produces
exactly one callback — at `threshold` ticks after the last edge, with the
last edge's value — when that value differs from the previously reported
one, and no callback at all otherwise. -/
theorem runSim_burst (pid cb : Nat) (pl : Option Nat) (th : Int) (hth : 0 < th) :
    ∀ (rest : List (Nat × Nat × Nat)) (t v fuel : Nat)
      (w0 : Option Int) (prev val0 : Option Nat) (r0 : Nat) (b0 : Bool),
      chainOk th pid t rest = true →
      (r0 = RUNNING_NONE ∨ b0 = true) →
      lastTick t rest + th.toNat < t + fuel →
      runSim fuel t ((t, pid, v) :: rest)
          ⟨[(pid, pinRec pid cb pl th w0 prev val0)], r0, b0⟩ =
        if some (lastVal v rest) = prev then []
        else [(lastTick t rest + th.toNat, pid, some (lastVal v rest))] := by
  intro rest
  induction rest with
  | nil =>
    intro t v fuel w0 prev val0 r0 b0 _ hr hfuel
    simp only [lastTick, lastVal] at *
    cases fuel with
    | zero => omega
    | succ f =>
      rw [runSim_tick_edge f t [] pid cb pl th w0 prev val0 v r0 b0 hr hth]
      rw [runSim_coast pid cb pl th ((th - 1).toNat) f (t + 1) [] (th - 1)
            prev (some v) (by omega) (by omega) (by intro e he; simp at he)]
      have hf : 1 ≤ f - (th - 1).toNat := by omega
      obtain ⟨m, hm⟩ : ∃ m, f - (th - 1).toNat = m + 1 :=
        ⟨f - (th - 1).toNat - 1, by omega⟩
      rw [hm]
      have hzero : th - 1 - (((th - 1).toNat : Nat) : Int) = 0 := by omega
      rw [hzero]
      rw [runSim_expired pid cb pl th m (t + 1 + (th - 1).toNat) 0 prev (some v)
            le_rfl]
      have htick : t + 1 + (th - 1).toNat = t + th.toNat := by omega
      rw [htick]
  | cons e r ih =>
    intro t v fuel w0 prev val0 r0 b0 hchain hr hfuel
    obtain ⟨t1, p1, v1⟩ := e
    simp only [chainOk, Bool.and_eq_true, beq_iff_eq, decide_eq_true_eq] at hchain
    obtain ⟨⟨⟨hp1, ht1⟩, hgap⟩, hchain'⟩ := hchain
    subst hp1
    have hlast_ge : t1 ≤ lastTick t1 r := lastTick_ge th p1 r t1 hchain'
    simp only [lastTick, lastVal] at hfuel ⊢
    cases fuel with
    | zero => omega
    | succ f =>
      rw [runSim_tick_edge f t ((t1, p1, v1) :: r) p1 cb pl th w0 prev val0 v
            r0 b0 hr hth]
      rw [runSim_coast p1 cb pl th (t1 - (t + 1)) f (t + 1) ((t1, p1, v1) :: r)
            (th - 1) prev (some v) (by omega) (by omega)
            (by
              intro e he
              simp at he
              subst he
              show t + 1 + (t1 - (t + 1)) ≤ t1
              omega)]
      have ht1' : t + 1 + (t1 - (t + 1)) = t1 := by omega
      rw [ht1']
      have hIH := ih t1 v1 (f - (t1 - (t + 1)))
            (some (th - 1 - ((t1 - (t + 1) : Nat) : Int))) prev (some v)
            RUNNING_SOME true hchain' (Or.inr rfl) (by omega)
      rw [show (⟨[(p1, pinRec p1 cb pl th
                (some (th - 1 - ((t1 - (t + 1) : Nat) : Int))) prev (some v))],
              RUNNING_SOME, true⟩ : TimerDebounce) =
            stW p1 cb pl th (th - 1 - ((t1 - (t + 1) : Nat) : Int)) prev (some v)
          from rfl] at hIH
      exact hIH

/-- C7: for a burst of edges on one registered pin, each at most
`threshold` ticks after the previous one, at most one callback fires:
it is delivered `threshold` ticks after the last edge, carries the raw
value recorded at that last edge, and fires exactly when that value
differs from the previously reported value `prev` — when they are equal,
no callback fires at all. -/
theorem c7_bounce_coalescing (pid cb : Nat) (pl : Option Nat) (th : Int)
    (t v fuel : Nat) (rest : List (Nat × Nat × Nat)) (prev val0 : Option Nat)
    (hth : 0 < th) (hchain : chainOk th pid t rest = true)
    (hfuel : lastTick t rest + th.toNat < t + fuel) :
    runSim fuel t ((t, pid, v) :: rest)
        ⟨[(pid, pinRec pid cb pl th none prev val0)], RUNNING_NONE, false⟩ =
      if some (lastVal v rest) = prev then []
      else [(lastTick t rest + th.toNat, pid, some (lastVal v rest))] :=
  runSim_burst pid cb pl th hth rest t v fuel none prev val0 RUNNING_NONE false
    hchain (Or.inl rfl) hfuel

/-- C7 witness: threshold 2, edges (tick 0, value 1) and (tick 1,
value 0) on pin 1, previously reported value `some 1`: exactly one
callback, at tick 1 + 2 = 3, with the last edge's value 0. -/
theorem c7_witness :
    runSim 4 0 [(0, 1, 1), (1, 1, 0)]
        ⟨[(1, pinRec 1 0 none 2 none (some 1) (some 1))], RUNNING_NONE, false⟩ =
      [(3, 1, some 0)] :=
  (c7_bounce_coalescing 1 0 none 2 0 1 4 [(1, 1, 0)] (some 1) (some 1)
      (by decide) (by decide) (by decide)).trans (by decide)

/-- C10: a freshly registered pin has `_previous = None`, and since
`None` differs from every recorded value `some v`, the first settle after
registration always invokes the callback, whatever the settled value is:
a first burst on a just-registered pin yields exactly one callback. -/
theorem c10_first_settle_always_fires (pid cb : Nat) (pl : Option Nat)
    (th : Int) (t v fuel : Nat) (rest : List (Nat × Nat × Nat))
    (hth : 0 < th) (hchain : chainOk th pid t rest = true)
    (hfuel : lastTick t rest + th.toNat < t + fuel) :
    (DebouncedPin.fresh pid cb pl th).previous = none ∧
    runSim fuel t ((t, pid, v) :: rest) (addPin TimerDebounce.init pid cb pl th).1 =
      [(lastTick t rest + th.toNat, pid, some (lastVal v rest))] := by
  refine ⟨rfl, ?_⟩
  have haddPin : (addPin TimerDebounce.init pid cb pl th).1 =
      ⟨[(pid, pinRec pid cb pl th none none none)], RUNNING_NONE, false⟩ := by
    simp [addPin, TimerDebounce.init, DebouncedPin.fresh, pinRec]
  rw [haddPin,
    runSim_burst pid cb pl th hth rest t v fuel none none none RUNNING_NONE
      false hchain (Or.inl rfl) hfuel,
    if_neg (by simp)]

/-- C10 witness: pin 2 registered with threshold 1, a single edge with
value 1 at tick 0: the very first settle fires the callback at tick 1
even though no value was ever reported before. -/
theorem c10_witness :
    (DebouncedPin.fresh 2 0 none 1).previous = none ∧
    runSim 2 0 [(0, 2, 1)] (addPin TimerDebounce.init 2 0 none 1).1 =
      [(1, 2, some 1)] := by
  have h := c10_first_settle_always_fires 2 0 none 1 0 1 2 []
    (by decide) (by decide) (by decide)
  exact ⟨h.1, h.2.trans (by decide)⟩

end Perthensis
